import Mathlib

/-!
Verification development for the java-code-commentator repository.

The Python source under scrutiny is `src/java_parser.py` (class `JavaParser`),
`src/comment_generator.py` (class `CommentGenerator`) and
`src/file_processor.py` (class `FileProcessor`).  Text is modelled as
`List Char`; Python regular expressions are modelled by a small backtracking
engine (`Reg`, `mrun1`, `mrunF`, `finditer`) that reproduces the leftmost-match,
greedy/lazy backtracking semantics of `re.finditer` for the constructs the two
patterns of `java_parser.py` actually use (none of their starred subpatterns can
match the empty string, so the bounded fuel below never cuts a real match
short).  The engine and all string helpers are structurally recursive so that
every concrete run reduces inside the kernel.
-/

set_option maxRecDepth 10000

/-- Python whitespace for `\s`, `str.strip` and `str.split()`:
space, tab, newline, carriage return, vertical tab, form feed. -/
def isSpaceCh (c : Char) : Bool :=
  c == ' ' || c == '\t' || c == '\n' || c == '\r' || c == '\x0b' || c == '\x0c'

/-- Python `\w` (ASCII range, which is all the analysed sources use):
letters, digits and underscore. -/
def isWordCh (c : Char) : Bool := c.isAlphanum || c == '_'

/-- Character class `[\w.]` of the return-type part of the method pattern. -/
def isWordDotCh (c : Char) : Bool := isWordCh c || c == '.'

/-- Character class `[^)]` of the parameter part of the method pattern. -/
def isNotRParenCh (c : Char) : Bool := c != ')'

/-- Character class `[^>]` of the generics part of the method pattern. -/
def isNotGtCh (c : Char) : Bool := c != '>'

/-- Character class `[\w\s,]` of the throws part of the method pattern. -/
def isThrowsCh (c : Char) : Bool := isWordCh c || isSpaceCh c || c == ','

/-- Python `str.lstrip()` on a line (whitespace only). -/
def pyLStrip (s : List Char) : List Char := s.dropWhile isSpaceCh

/-- Python `str.rstrip()` (whitespace only). -/
def pyRStrip (s : List Char) : List Char := (s.reverse.dropWhile isSpaceCh).reverse

/-- Python `str.strip()` (whitespace only). -/
def pyStrip (s : List Char) : List Char := pyRStrip (pyLStrip s)

/-- Python `sub in s` (substring containment). -/
def containsSub (pat s : List Char) : Bool := s.tails.any (fun t => pat.isPrefixOf t)

/-- Python `s.endswith(pat)`. -/
def endsWithL (pat s : List Char) : Bool := pat.reverse.isPrefixOf s.reverse

/-- One step of Python `str.replace(pat, repl)`: leftmost, non-overlapping.
The fuel argument is only there to make the recursion structural; it is
instantiated with the length of the string plus one, which the scan can
never exhaust because `pat` is non-empty at every call site. -/
def replaceAllGo (pat repl : List Char) : Nat → List Char → List Char
  | 0, s => s
  | _ + 1, [] => []
  | fuel + 1, c :: rest =>
    if pat ≠ [] && pat.isPrefixOf (c :: rest) then
      repl ++ replaceAllGo pat repl fuel ((c :: rest).drop pat.length)
    else
      c :: replaceAllGo pat repl fuel rest

/-- Python `s.replace(pat, repl)`. -/
def replaceAll (pat repl s : List Char) : List Char :=
  replaceAllGo pat repl (s.length + 1) s

/-- Helper of `splitOnNl`: accumulates the current piece in reverse. -/
def splitOnNlGo (acc : List Char) : List Char → List (List Char)
  | [] => [acc.reverse]
  | '\n' :: rest => acc.reverse :: splitOnNlGo [] rest
  | c :: rest => splitOnNlGo (c :: acc) rest

/-- Python `s.split(chr(10))`: keeps empty pieces, returns one empty piece
for the empty string. -/
def splitOnNl (s : List Char) : List (List Char) := splitOnNlGo [] s

/-- Helper of `splitOnComma`. -/
def splitOnCommaGo (acc : List Char) : List Char → List (List Char)
  | [] => [acc.reverse]
  | ',' :: rest => acc.reverse :: splitOnCommaGo [] rest
  | c :: rest => splitOnCommaGo (c :: acc) rest

/-- Python `s.split(chr(44))` (split on commas, keeping empty pieces). -/
def splitOnComma (s : List Char) : List (List Char) := splitOnCommaGo [] s

/-- Helper of `splitlinesPy`. -/
def splitlinesGo (acc : List Char) : List Char → List (List Char)
  | [] => if acc.isEmpty then [] else [acc.reverse]
  | '\r' :: '\n' :: rest => acc.reverse :: splitlinesGo [] rest
  | '\r' :: rest => acc.reverse :: splitlinesGo [] rest
  | '\n' :: rest => acc.reverse :: splitlinesGo [] rest
  | c :: rest => splitlinesGo (c :: acc) rest

/-- Python `str.splitlines()` restricted to the line terminators that occur in
text files (`\n`, `\r\n`, `\r`): the terminators are dropped and a final
terminator produces no trailing empty line. -/
def splitlinesPy (s : List Char) : List (List Char) := splitlinesGo [] s

/-- Helper of `pySplitWs`. -/
def pySplitWsGo (acc : List Char) : List Char → List (List Char)
  | [] => if acc.isEmpty then [] else [acc.reverse]
  | c :: rest =>
    if isSpaceCh c then
      if acc.isEmpty then pySplitWsGo [] rest else acc.reverse :: pySplitWsGo [] rest
    else
      pySplitWsGo (c :: acc) rest

/-- Python `str.split()` with no argument: splits on whitespace runs and
never yields an empty piece. -/
def pySplitWs (s : List Char) : List (List Char) := pySplitWsGo [] s

/-!
## The regular-expression engine

`Reg` is the abstract syntax of the fragment of Python `re` used by the two
patterns of `java_parser.py` (compiled with `re.MULTILINE | re.DOTALL`; the
patterns use no anchors, so only DOTALL matters and `anyCh` matches every
character).  `alt` tries its left alternative first, `starG`/`optG` are
greedy, `starL` is the lazy star used for the `.*?` inside the doc-comment
group, and `group` records the last text captured by a numbered group, as
Python does.
-/

inductive Reg where
  | eps : Reg
  | ch : Char → Reg
  | cls : (Char → Bool) → Reg
  | seq : Reg → Reg → Reg
  | alt : Reg → Reg → Reg
  | starG : Reg → Reg
  | starL : Reg → Reg
  | group : Nat → Reg → Reg

/-- Group environment: the captures recorded so far, most recent first. -/
abbrev GEnv := List (Nat × List Char)

/-- Continuations of the backtracking matcher. -/
abbrev KCont := List Char → GEnv → Option (List Char × GEnv)

/-- One fuel level of the matcher, in continuation-passing style.  `next` is
the matcher at the next-lower fuel level and is invoked once per star
iteration, so the fuel bounds the number of star iterations along any one
backtracking path; every starred subpattern of the two Java patterns consumes
at least one character per iteration, so `mrunF` with its generous fuel is an
exact model of the Python engine on them. -/
def mrun1 (next : Reg → List Char → GEnv → KCont → Option (List Char × GEnv)) :
    Reg → List Char → GEnv → KCont → Option (List Char × GEnv)
  | .eps, s, env, k => k s env
  | .ch c, s, env, k =>
    match s with
    | [] => none
    | x :: xs => if x == c then k xs env else none
  | .cls p, s, env, k =>
    match s with
    | [] => none
    | x :: xs => if p x then k xs env else none
  | .seq a b, s, env, k => mrun1 next a s env (fun s2 e2 => mrun1 next b s2 e2 k)
  | .alt a b, s, env, k =>
    match mrun1 next a s env k with
    | some r => some r
    | none => mrun1 next b s env k
  | .starG a, s, env, k =>
    match mrun1 next a s env (fun s2 e2 => next (.starG a) s2 e2 k) with
    | some r => some r
    | none => k s env
  | .starL a, s, env, k =>
    match k s env with
    | some r => some r
    | none => mrun1 next a s env (fun s2 e2 => next (.starL a) s2 e2 k)
  | .group i a, s, env, k =>
    mrun1 next a s env (fun s2 e2 => k s2 ((i, s.take (s.length - s2.length)) :: e2))

/-- The fuelled matcher. -/
def mrunF : Nat → Reg → List Char → GEnv → KCont → Option (List Char × GEnv)
  | 0, _, _, _, _ => none
  | fuel + 1, r, s, env, k => mrun1 (mrunF fuel) r s env k

/-- Match `r` anchored at the start of `s`: the length of the matched prefix
and the group captures, or `none`.  The first (longest-backtracking-priority)
match is returned, exactly as Python finds it. -/
def matchAt (r : Reg) (s : List Char) : Option (Nat × GEnv) :=
  match mrunF (64 * (s.length + 2)) r s [] (fun rest env => some (rest, env)) with
  | some (rest, env) => some (s.length - rest.length, env)
  | none => none

/-- One match as `re.finditer` reports it: start offset in the whole text,
the matched text (`group(0)`) and the captures. -/
structure RMatch where
  start : Nat
  matched : List Char
  env : GEnv
  deriving DecidableEq, Repr

/-- Scan of `re.finditer`: try the pattern at every position left to right,
resume after each (non-overlapping) match, advance by one character after an
empty match.  The fuel is the remaining text length plus slack; every branch
shortens the suffix, so it is never exhausted. -/
def finditerGo (r : Reg) : Nat → List Char → Nat → List RMatch
  | 0, _, _ => []
  | _ + 1, [], pos =>
    match matchAt r [] with
    | some (_, env) => [⟨pos, [], env⟩]
    | none => []
  | fuel + 1, s@(_ :: rest), pos =>
    match matchAt r s with
    | some (n, env) =>
      if n = 0 then ⟨pos, [], env⟩ :: finditerGo r fuel rest (pos + 1)
      else ⟨pos, s.take n, env⟩ :: finditerGo r fuel (s.drop n) (pos + n)
    | none => finditerGo r fuel rest (pos + 1)

/-- `re.finditer(r, s)` as a list of matches. -/
def finditer (r : Reg) (s : List Char) : List RMatch :=
  finditerGo r (s.length + 2) s 0

/-- The most recent capture of group `i`, `none` when the group never
participated in the match (Python `match.group(name) is None`). -/
def lookupG (env : GEnv) (i : Nat) : Option (List Char) :=
  (env.find? (fun p => p.1 == i)).map (fun p => p.2)

/-- A literal string as a pattern. -/
def rstr : List Char → Reg
  | [] => .eps
  | c :: cs => .seq (.ch c) (rstr cs)

/-- Greedy `?`. -/
def ropt (a : Reg) : Reg := .alt a .eps

/-- Greedy `+` as one copy followed by a greedy star. -/
def rplus (a : Reg) : Reg := .seq a (.starG a)

/-- `.` under `re.DOTALL`: every character, newline included. -/
def anyCh : Reg := .cls (fun _ => true)

/-- `\w+`. -/
def word1 : Reg := rplus (.cls isWordCh)

/-- `\s*`. -/
def sp0 : Reg := .starG (.cls isSpaceCh)

/-- `\s+`. -/
def sp1 : Reg := rplus (.cls isSpaceCh)

/-!
## The two patterns of `JavaParser.__init__`

Transcribed subexpression by subexpression from `java_parser.py`.  Group
numbers follow Python: capturing groups are numbered by their opening
parenthesis, so in the class pattern comment = 1, annotations = 2,
modifiers = 3, name = 4, and in the method pattern comment = 1,
annotations = 2, modifiers = 3, return_type = 4, name = 5, params = 6,
throws = 7.
-/

/-- Group 1, both patterns: the optional JavaDoc block directly attached to
the declaration, with its trailing whitespace. -/
def commentG : Reg :=
  ropt (.group 1 (.seq (rstr "/**".toList)
    (.seq (.starL anyCh) (.seq (rstr "*/".toList) sp0))))

/-- Group 2, both patterns: zero or more annotations, each an at-sign, a
word, an optional parenthesised argument list and trailing whitespace. -/
def annotsG : Reg :=
  .group 2 (.starG (.seq (.ch '@') (.seq word1
    (.seq (ropt (.seq (.ch '(') (.seq (.starG (.cls isNotRParenCh)) (.ch ')')))) sp0))))

/-- The modifier keyword alternation of the class pattern. -/
def modKw : Reg :=
  .alt (rstr "public".toList) (.alt (rstr "private".toList)
    (.alt (rstr "protected".toList) (.alt (rstr "static".toList)
      (.alt (rstr "final".toList) (rstr "abstract".toList)))))

/-- The modifier keyword alternation of the method pattern (adds
`synchronized` before `abstract`). -/
def modKwM : Reg :=
  .alt (rstr "public".toList) (.alt (rstr "private".toList)
    (.alt (rstr "protected".toList) (.alt (rstr "static".toList)
      (.alt (rstr "final".toList) (.alt (rstr "synchronized".toList)
        (rstr "abstract".toList))))))

/-- A dotted name: a word followed by zero or more dot-separated words with
optional whitespace around the dots. -/
def qname : Reg :=
  .seq word1 (.starG (.seq sp0 (.seq (.ch '.') (.seq sp0 word1))))

/-- The optional extends clause of the class pattern. -/
def extendsOpt : Reg :=
  ropt (.seq sp1 (.seq (rstr "extends".toList) (.seq sp1 qname)))

/-- The optional implements clause of the class pattern. -/
def implOpt : Reg :=
  ropt (.seq sp1 (.seq (rstr "implements".toList) (.seq sp1
    (.seq qname (.starG (.seq sp0 (.seq (.ch ',') (.seq sp0 qname))))))))

/-- `JavaParser.class_pattern`: note that the keyword alternation of the
source contains only the literal `class` (no interface, no enum). -/
def classPattern : Reg :=
  .seq commentG (.seq annotsG (.seq (.starG (.group 3 (.seq modKw sp1)))
    (.seq (rstr "class".toList) (.seq sp1 (.seq (.group 4 word1)
      (.seq extendsOpt (.seq implOpt (.seq sp0 (.ch '{')))))))))

/-- The optional return type of the method pattern:
`(?P<return_type>(?:(?:[\w.]+)(?:<[^>]+>)?(?:\[\])*)\s+)?`. -/
def returnTypeG : Reg :=
  ropt (.group 4 (.seq (.seq (rplus (.cls isWordDotCh))
    (.seq (ropt (.seq (.ch '<') (.seq (rplus (.cls isNotGtCh)) (.ch '>'))))
      (.starG (rstr "[]".toList)))) sp1))

/-- The optional throws clause of the method pattern. -/
def throwsOpt : Reg :=
  ropt (.seq sp1 (.seq (rstr "throws".toList) (.seq sp1
    (.group 7 (rplus (.cls isThrowsCh))))))

/-- `JavaParser.method_pattern`. -/
def methodPattern : Reg :=
  .seq commentG (.seq annotsG (.seq (.starG (.group 3 (.seq modKwM sp1)))
    (.seq returnTypeG (.seq (.group 5 word1) (.seq sp0 (.seq (.ch '(')
      (.seq (.group 6 (.starG (.cls isNotRParenCh))) (.seq (.ch ')')
        (.seq throwsOpt (.seq sp0 (.ch '{')))))))))))

/-!
## `JavaParser` data model and comment extraction
-/

/-- Detail record built by `JavaParser._extract_method_info`. -/
structure MethodInfo where
  name : List Char
  return_type : List Char
  parameters : List (List Char × List Char)
  throws : List (List Char)
  deriving DecidableEq, Repr

/-- The dataclass `JavaElement` of `java_parser.py`. -/
structure JavaElement where
  type : List Char
  name : List Char
  content : List Char
  line_number : Nat
  existing_comment : Option (List Char) := none
  method_info : Option MethodInfo := none
  deriving DecidableEq, Repr

/-- One line of the cleaning loop of `JavaParser._extract_comment`: the
doc-comment delimiters are replaced away, the line is stripped, a leading
asterisk (with one optional following whitespace) is removed, and empty
results are dropped. -/
def cleanLine (line : List Char) : Option (List Char) :=
  let l1 := pyStrip (replaceAll "*/".toList [] (replaceAll "/**".toList [] line))
  let l2 :=
    match pyLStrip l1 with
    | '*' :: r =>
      match r with
      | c :: r2 => if isSpaceCh c then r2 else c :: r2
      | [] => []
    | _ => l1
  if l2.isEmpty then none else some l2

/-- `JavaParser._extract_comment`: `None` for a missing or empty comment
group, otherwise the newline-join of the cleaned lines (which may be the
empty string). -/
def extractComment : Option (List Char) → Option (List Char)
  | none => none
  | some c =>
    if c.isEmpty then none
    else some (List.intercalate "\n".toList ((splitOnNl c).filterMap cleanLine))

/-- Python truthiness of the optional comment string: false for `None` and
for the empty string. -/
def truthyOpt : Option (List Char) → Bool
  | none => false
  | some s => !s.isEmpty

/-- Number of newline characters before offset `n`, giving the 1-based line
number of a match as `content[:match.start()].count(chr(10)) + 1`. -/
def countNlBefore (content : List Char) (n : Nat) : Nat :=
  (content.take n).count '\n'

/-!
## `JavaParser._extract_method_info`

The Python body runs inside `try ... except`.  Its second statement is
`match.group(atom_return_type, atom_empty).strip()` where the second group
name is the empty string: `re.Match.group` raises `IndexError: no such
group` for it, the exception is caught, and the function returns `None` for
every match.  `mgroup` models `re.Match.group` with one name, `mgroup2` the
two-name form (a tuple, evaluated left to right), and `extractMethodInfo`
the whole guarded body, error paths included.
-/

/-- The named groups of `method_pattern` and their Python group numbers. -/
def methodGroupIdx (nm : List Char) : Option Nat :=
  if nm = "comment".toList then some 1
  else if nm = "annotations".toList then some 2
  else if nm = "modifiers".toList then some 3
  else if nm = "return_type".toList then some 4
  else if nm = "name".toList then some 5
  else if nm = "params".toList then some 6
  else if nm = "throws".toList then some 7
  else none

/-- `match.group(nm)` on a method match: the capture (possibly `None`), or
an `IndexError` for a name that is not a group of the pattern. -/
def mgroup (m : RMatch) (nm : List Char) : Except (List Char) (Option (List Char)) :=
  match methodGroupIdx nm with
  | some i => .ok (lookupG m.env i)
  | none => .error "no such group".toList

/-- `match.group(nm1, nm2)`: both lookups, left to right, as Python builds
the tuple. -/
def mgroup2 (m : RMatch) (nm1 nm2 : List Char) :
    Except (List Char) (Option (List Char) × Option (List Char)) := do
  let a ← mgroup m nm1
  let b ← mgroup m nm2
  return (a, b)

/-- The parameter-parsing loop of `_extract_method_info`: split the
parameter text on commas, strip each piece, keep the non-empty ones that
have at least two whitespace-separated tokens, the last token being the
name and the space-join of the rest the type. -/
def parseParams (s : List Char) : List (List Char × List Char) :=
  if s.isEmpty then []
  else
    (splitOnComma s).filterMap (fun piece =>
      let p := pyStrip piece
      if p.isEmpty then none
      else
        match (pySplitWs p).reverse with
        | [] => none
        | [_] => none
        | last :: initRev =>
          some (pyStrip (List.intercalate " ".toList initRev.reverse), pyStrip last))

/-- The throws-parsing line of `_extract_method_info`. -/
def parseThrows (s : List Char) : List (List Char) :=
  if s.isEmpty then [] else (splitOnComma s).map pyStrip

/-- `JavaParser._extract_method_info`.  The two-name `group` call with the
empty second name raises for every match, so the result is always `None`;
the rest of the body is the translation of the (hence unreachable) Python
code below it. -/
def extractMethodInfo (m : RMatch) : Option MethodInfo :=
  match (do
    let nmO ← mgroup m "name".toList
    let rtP ← mgroup2 m "return_type".toList "".toList
    let psP ← mgroup2 m "params".toList "".toList
    let twP ← mgroup2 m "throws".toList "".toList
    let rt := pyStrip (rtP.1.getD [])
    Except.ok (⟨nmO.getD [],
      if rt.isEmpty then "void".toList else rt,
      parseParams (pyStrip (psP.1.getD [])),
      parseThrows (pyStrip (twP.1.getD []))⟩ : MethodInfo)) with
  | .ok info => some info
  | .error _ => none

/-!
## `JavaParser.parse`
-/

/-- The body of the class loop of `JavaParser.parse` for one match: skip the
match when the extracted comment is truthy, otherwise build the element. -/
def classElOf (content : List Char) (m : RMatch) : Option JavaElement :=
  let cc := extractComment (lookupG m.env 1)
  if truthyOpt cc then none
  else some ⟨"class".toList, (lookupG m.env 4).getD [], m.matched,
    countNlBefore content m.start + 1, cc, none⟩

/-- The body of the method loop of `JavaParser.parse` for one match: skip
when `_extract_method_info` failed, when the comment is truthy, or when the
name starts with a getter/setter prefix. -/
def methodElOf (content : List Char) (m : RMatch) : Option JavaElement :=
  match extractMethodInfo m with
  | none => none
  | some info =>
    let mc := extractComment (lookupG m.env 1)
    if truthyOpt mc then none
    else if ("get".toList.isPrefixOf info.name || "set".toList.isPrefixOf info.name
        || "is".toList.isPrefixOf info.name) then none
    else some ⟨"method".toList, info.name, m.matched,
      countNlBefore content m.start + 1, mc, some info⟩

/-- The class elements appended by `JavaParser.parse`. -/
def fileClassEls (content : List Char) : List JavaElement :=
  (finditer classPattern content).filterMap (classElOf content)

/-- The method elements appended by `JavaParser.parse`. -/
def fileMethodEls (content : List Char) : List JavaElement :=
  (finditer methodPattern content).filterMap (methodElOf content)

/-- Stable insertion into a list sorted by `line_number`: the new element
goes after every element with a smaller-or-equal line number, which is
exactly where Python's stable `list.sort(key=line_number)` keeps it. -/
def insertByLine (e : JavaElement) : List JavaElement → List JavaElement
  | [] => [e]
  | x :: xs =>
    if x.line_number ≤ e.line_number then x :: insertByLine e xs
    else e :: x :: xs

/-- Stable sort by `line_number`, modelling `elements.sort(key=...)`. -/
def sortByLine (l : List JavaElement) : List JavaElement :=
  l.foldl (fun acc e => insertByLine e acc) []

/-- `JavaParser.parse`: the class matches, then the method matches, sorted
by starting line. -/
def parse (content : List Char) : List JavaElement :=
  sortByLine (fileClassEls content ++ fileMethodEls content)

/-!
## `CommentGenerator`
-/

/-- `max_retries` set in `CommentGenerator.__init__`. -/
def maxRetries : Nat := 5

/-- `retry_delay` set in `CommentGenerator.__init__`. -/
def retryDelay : Nat := 15

/-- `retry_multiplier` set in `CommentGenerator.__init__`. -/
def retryMultiplier : Nat := 2

/-- The transient-overload test of `_call_claude_api`: the error message
contains `overloaded_error` or `529`. -/
def isOverloadMsg (msg : List Char) : Bool :=
  containsSub "overloaded_error".toList msg || containsSub "529".toList msg

/-- The loop body of `CommentGenerator._format_comment` (the
`for i, line in enumerate(lines)` loop): `n` is the total number of lines
and `i` the current index. -/
def fmtLines (n : Nat) : Nat → List (List Char) → List (List Char)
  | _, [] => []
  | i, line :: rest =>
    (if i = 0 then "/**".toList
     else if i = n - 1 then " */".toList
     else
       let ct := pyStrip line
       let ct := if "*".toList.isPrefixOf ct then pyStrip (ct.drop 1) else ct
       if ct.isEmpty then " *".toList else " * ".toList ++ ct) :: fmtLines n (i + 1) rest

/-- `CommentGenerator._format_comment`: strip markdown fences, force the
JavaDoc delimiters, then rewrite every line through the enumerate loop. -/
def formatComment (comment : List Char) : List Char :=
  if comment.isEmpty then []
  else
    let c := pyStrip (replaceAll "```".toList [] (replaceAll "```java".toList [] comment))
    let c := if "/**".toList.isPrefixOf c then c else "/**\n * ".toList ++ c
    let c := if endsWithL "*/".toList c then c else pyRStrip c ++ "\n */".toList
    let lines := splitOnNl c
    List.intercalate "\n".toList (fmtLines lines.length 0 lines)

/-- One attempt of the backend: either the response text or the message of
the exception the client raised. -/
abbrev Backend := Nat → Except (List Char) (List Char)

/-- The recursion of `CommentGenerator._call_claude_api`, returning the
final result (`none` models Python `None`, the fallback trigger) together
with the list of `time.sleep` durations performed.  The budget argument
makes the recursion structural; `callClaudeApi` instantiates it with
`maxRetries - retry_count`, which the guard `retry_count < max_retries - 1`
keeps from ever reaching zero. -/
def callApiGo (backend : Backend) : Nat → Nat → Option (List Char) × List Nat
  | 0, _ => (none, [])
  | budget + 1, rc =>
    match backend rc with
    | .ok text => (some (formatComment text), [])
    | .error msg =>
      if isOverloadMsg msg && decide (rc < maxRetries - 1) then
        let wait := retryDelay * retryMultiplier ^ rc
        let rest := callApiGo backend budget (rc + 1)
        (rest.1, wait :: rest.2)
      else (none, [])

/-- `CommentGenerator._call_claude_api(prompt, retry_count)`: succeed with
the formatted response, retry with exponential backoff on an overload error
while fewer than `max_retries - 1` retries have happened, and return `None`
otherwise.  No exception ever escapes: every branch returns. -/
def callClaudeApi (backend : Backend) (rc : Nat) : Option (List Char) × List Nat :=
  callApiGo backend (maxRetries - rc) rc

/-- `CommentGenerator._generate_class_comment` after the API call: the
response when there is one, otherwise the synthesized fallback block. -/
def generateClassComment (e : JavaElement) (api : Option (List Char)) : List Char :=
  match api with
  | none => "/**\n * ".toList ++ e.name ++ " 클래스\n */".toList
  | some c => c

/-- `CommentGenerator._generate_method_comment` after the API call. -/
def generateMethodComment (e : JavaElement) (api : Option (List Char)) : List Char :=
  match api with
  | none => "/**\n * ".toList ++ e.name ++ " 메소드\n */".toList
  | some c => c

/-- `CommentGenerator._generate_field_comment`: on a successful response the
text is stripped, fences removed and a line-comment marker forced; on any
exception the synthesized fallback line is returned. -/
def generateFieldComment (e : JavaElement) (api : Option (List Char)) : List Char :=
  match api with
  | none => "// ".toList ++ e.name ++ " 필드".toList
  | some raw =>
    let c := replaceAll "```".toList [] (pyStrip raw)
    if "//".toList.isPrefixOf c then c else "// ".toList ++ c

/-- `CommentGenerator.generate_comment`: dispatch on the element type;
`api` is the outcome of the backend interaction (`none` when the backend is
unavailable: retries exhausted, a permanent error, or the field call
raising). -/
def generateComment (e : JavaElement) (api : Option (List Char)) : List Char :=
  if e.type = "class".toList ∨ e.type = "interface".toList ∨ e.type = "enum".toList then
    generateClassComment e api
  else if e.type = "method".toList then generateMethodComment e api
  else if e.type = "field".toList then generateFieldComment e api
  else []

/-!
## `FileProcessor.process_java_file`
-/

/-- `FileProcessor._get_indent`: length minus length of the left-strip. -/
def getIndent (line : List Char) : Nat := line.length - (pyLStrip line).length

/-- `FileProcessor._indent_comment` on a string comment: each non-blank
line of the comment is prefixed with the indent string. -/
def indentComment (comment : List Char) (ind : List Char) : List Char :=
  List.intercalate "\n".toList
    ((splitlinesPy comment).map (fun l => if (pyStrip l).isEmpty then l else ind ++ l))

/-- `FileProcessor._insert_comment`: `list.insert(position, comment)` on a
copy — the multi-line comment goes in as one buffer entry. -/
def insertComment (lines : List (List Char)) (position : Nat) (comment : List Char) :
    List (List Char) :=
  lines.take position ++ [comment] ++ lines.drop position

/-- The per-element loop body of `FileProcessor.process_java_file`:
generate, indent by the leading whitespace of the line currently found at
index `line_number - 1` of the buffer, and insert at that same index. -/
def processElement (gen : JavaElement → List Char) (ml : List (List Char))
    (e : JavaElement) : List (List Char) :=
  let comment := gen e
  let ind := getIndent (ml.getD (e.line_number - 1) [])
  let indented := indentComment comment (List.replicate ind ' ')
  insertComment ml (e.line_number - 1) indented

/-- `FileProcessor.process_java_file` from the read content to the written
content: split into lines, parse, fold the insertion loop over the parsed
elements in order, and join with a newline (this join is what the file is
rewritten with, unconditionally).  `gen` stands for
`comment_generator.generate_comment` for the run. -/
def processJavaFileWith (gen : JavaElement → List Char) (content : List Char) :
    List Char :=
  let contentLines := splitlinesPy content
  let els := parse content
  List.intercalate "\n".toList (els.foldl (processElement gen) contentLines)

/-- The generator of a run whose backend is unavailable for every element:
every comment is the synthesized fallback. -/
def fallbackGen (e : JavaElement) : List Char := generateComment e none

/-!
## Helper lemmas
-/

/-- The two-name group call of `_extract_method_info` fails for every match
(the empty string is not a group name), so the info is always `None`. -/
theorem extractMethodInfo_eq_none (m : RMatch) : extractMethodInfo m = none := rfl

/-- Hence the method loop of `parse` keeps no match. -/
theorem methodElOf_eq_none (content : List Char) (m : RMatch) :
    methodElOf content m = none := by
  simp [methodElOf, extractMethodInfo_eq_none]

/-- The method element list of `parse` is empty for every source text. -/
theorem fileMethodEls_eq_nil (content : List Char) : fileMethodEls content = [] := by
  simp [fileMethodEls, methodElOf_eq_none]

/-- An element built by the class loop has type `class` and a non-truthy
extracted comment (the truthy ones were skipped). -/
theorem classElOf_some {content : List Char} {m : RMatch} {e : JavaElement}
    (h : classElOf content m = some e) :
    e.type = "class".toList ∧ truthyOpt e.existing_comment = false := by
  unfold classElOf at h
  dsimp only at h
  by_cases hc : truthyOpt (extractComment (lookupG m.env 1)) = true
  · rw [if_pos hc] at h
    exact absurd h (by simp)
  · rw [if_neg hc] at h
    cases h
    exact ⟨rfl, by simpa using hc⟩

/-- Membership through stable insertion. -/
theorem mem_insertByLine (e : JavaElement) (l : List JavaElement) (a : JavaElement) :
    a ∈ insertByLine e l ↔ a = e ∨ a ∈ l := by
  induction l with
  | nil => simp [insertByLine]
  | cons x xs ih =>
    by_cases h : x.line_number ≤ e.line_number
    · simp only [insertByLine, if_pos h, List.mem_cons, ih]
      tauto
    · simp only [insertByLine, if_neg h, List.mem_cons]

/-- Stable insertion preserves sortedness by line number. -/
theorem pairwise_insertByLine (e : JavaElement) (l : List JavaElement)
    (h : l.Pairwise (fun a b => a.line_number ≤ b.line_number)) :
    (insertByLine e l).Pairwise (fun a b => a.line_number ≤ b.line_number) := by
  induction l with
  | nil => simp [insertByLine]
  | cons x xs ih =>
    rcases List.pairwise_cons.mp h with ⟨hx, hxs⟩
    by_cases hle : x.line_number ≤ e.line_number
    · simp only [insertByLine, if_pos hle]
      refine List.pairwise_cons.mpr ⟨?_, ih hxs⟩
      intro b hb
      rcases (mem_insertByLine e xs b).mp hb with rfl | hbx
      · exact hle
      · exact hx b hbx
    · simp only [insertByLine, if_neg hle]
      refine List.pairwise_cons.mpr ⟨?_, h⟩
      intro b hb
      rcases List.mem_cons.mp hb with rfl | hbxs
      · omega
      · have := hx b hbxs; omega

/-- Membership through the insertion-sort fold. -/
theorem mem_foldl_insertByLine (l : List JavaElement) :
    ∀ (acc : List JavaElement) (a : JavaElement),
      a ∈ l.foldl (fun acc e => insertByLine e acc) acc ↔ a ∈ acc ∨ a ∈ l := by
  induction l with
  | nil => intro acc a; simp
  | cons x xs ih =>
    intro acc a
    rw [List.foldl_cons, ih, mem_insertByLine]
    simp only [List.mem_cons]
    tauto

/-- `sortByLine` is a permutation-style membership preserver. -/
theorem mem_sortByLine (l : List JavaElement) (a : JavaElement) :
    a ∈ sortByLine l ↔ a ∈ l := by
  unfold sortByLine
  rw [mem_foldl_insertByLine]
  simp

/-- The insertion-sort fold yields a list sorted by line number. -/
theorem pairwise_foldl_insertByLine (l : List JavaElement) :
    ∀ acc : List JavaElement,
      acc.Pairwise (fun a b => a.line_number ≤ b.line_number) →
      (l.foldl (fun acc e => insertByLine e acc) acc).Pairwise
        (fun a b => a.line_number ≤ b.line_number) := by
  induction l with
  | nil => intro acc h; simpa using h
  | cons x xs ih =>
    intro acc h
    rw [List.foldl_cons]
    exact ih _ (pairwise_insertByLine x acc h)

/-- `sortByLine` sorts by line number. -/
theorem sortByLine_pairwise (l : List JavaElement) :
    (sortByLine l).Pairwise (fun a b => a.line_number ≤ b.line_number) :=
  pairwise_foldl_insertByLine l [] (by simp)

/-- Every element `parse` returns comes from its class loop. -/
theorem mem_parse_class {content : List Char} {e : JavaElement}
    (h : e ∈ parse content) : ∃ m, classElOf content m = some e := by
  unfold parse at h
  have h2 := (mem_sortByLine _ _).mp h
  rw [fileMethodEls_eq_nil, List.append_nil] at h2
  rcases List.mem_filterMap.mp h2 with ⟨m, _, hm⟩
  exact ⟨m, hm⟩

/-!
## The claims
-/

/-- Claim C1.  The insertion loop of `FileProcessor.process_java_file` adds
no cumulative offset: each comment is inserted at the originally recorded
index `line_number - 1` of the already-shifted buffer.  For two undocumented
classes (backend unavailable, fallback comments) the comment of class `B`,
recorded for line 3, is inserted at buffer index 2 after the insertion for
class `A` has already shifted the buffer, so it lands immediately above the
closing brace of `A`: line index 7 of the output (the line right after the
comment block of `B`) is the closing brace, not the `class B {` line the
specified algorithm would put there. -/
theorem c1_insertion_misplaced :
    processJavaFileWith fallbackGen ("class A \x7b\n\x7d\nclass B \x7b\n\x7d".toList)
      = ("/**\n * A 클래스\n */\nclass A \x7b\n/**\n * B 클래스\n */\n\x7d\nclass B \x7b\n\x7d").toList
    ∧ (splitlinesPy (processJavaFileWith fallbackGen
        ("class A \x7b\n\x7d\nclass B \x7b\n\x7d".toList))).getD 7 [] = "\x7d".toList := by
  exact ⟨rfl, rfl⟩

/-- Claim C2.  `JavaParser.parse` has no field loop at all (and the field
loop of the dead `parse_java_file` dereferences the never-defined
`self.field_pattern`), so a source text with a top-level field declaration
yields only its class element and no Field element. -/
theorem c2_no_field_elements :
    parse ("public class A \x7b\n    private int x;\n\x7d\n".toList)
      = [⟨"class".toList, "A".toList, "public class A \x7b".toList, 1, none, none⟩] := by
  rfl

/-- Claim C3, counterexample.  A class whose immediately preceding non-blank
line is a pure line comment is returned by the recognizer: the only
documentation test of `parse` is the regex-attached `/** ... */` group, which
does not see `//` lines. -/
theorem c3_line_comment_not_excluded :
    parse ("// note\nclass Foo \x7b\n\x7d".toList)
      = [⟨"class".toList, "Foo".toList, "class Foo \x7b".toList, 2, none, none⟩] := by
  rfl

/-- Claim C3, amended.  Every element `parse` returns has a non-truthy
`existing_comment` (Python `None` or the empty string): elements whose
regex-attached JavaDoc group cleans to non-empty text are skipped inside the
recognition loop.  (Preceding pure `//` lines do not exclude an element, as
the counterexample shows.) -/
theorem c3_no_truthy_existing_comment :
    ∀ (content : List Char) (e : JavaElement),
      e ∈ parse content → truthyOpt e.existing_comment = false := by
  intro content e he
  rcases mem_parse_class he with ⟨m, hm⟩
  exact (classElOf_some hm).2

/-- Claim C3, witness: the theorem applied to the one element of a concrete
undocumented source. -/
theorem c3_witness :
    truthyOpt (⟨"class".toList, "A".toList, "class A \x7b".toList, 1, none, none⟩
      : JavaElement).existing_comment = false :=
  c3_no_truthy_existing_comment ("class A \x7b\n\x7d".toList) _ (by decide)

/-- Claim C4, counterexample.  The class pattern of `JavaParser.__init__`
contains only the literal keyword `class`; interface and enum declarations
are not recognized at all. -/
theorem c4_interface_enum_missed :
    parse ("interface Foo \x7b\n\x7d".toList) = [] ∧ parse ("enum Color \x7b\n\x7d".toList) = [] := by
  exact ⟨rfl, rfl⟩

/-- Claim C4, amended.  A declaration using the keyword `class` — with
optional annotations, modifiers and extends/implements clauses, terminated
by an opening brace — is recognized and returned; `interface` and `enum`
have no pattern alternative and are never returned. -/
theorem c4_class_keyword_recognized :
    parse ("public class Foo extends Bar implements Baz \x7b\n\x7d".toList)
      = [⟨"class".toList, "Foo".toList,
          "public class Foo extends Bar implements Baz \x7b".toList, 1, none, none⟩]
    ∧ parse ("@Entity final class Qux \x7b\n\x7d".toList)
      = [⟨"class".toList, "Qux".toList, "@Entity final class Qux \x7b".toList, 1, none, none⟩] := by
  exact ⟨rfl, rfl⟩

/-- Claim C5.  `_format_comment` on a backend response that is a one-line
JavaDoc (`/** foo */`): the response already starts with the opener and ends
with the closer, so no delimiter line is added, the split yields a single
line, and the enumerate loop maps that single line (index 0) to the opener
alone — the result is the single line `/**`, with no closing ` */` line and
the content dropped. -/
theorem c5_single_line_collapse :
    formatComment ("/** foo */".toList) = "/**".toList
    ∧ (splitOnNl (formatComment ("/** foo */".toList))).getLast? = some ("/**".toList) := by
  exact ⟨rfl, rfl⟩

/-- Unfolding equation of one recursion step of `_call_claude_api`. -/
theorem callApiGo_succ (backend : Backend) (budget rc : Nat) :
    callApiGo backend (budget + 1) rc =
      match backend rc with
      | .ok text => (some (formatComment text), [])
      | .error msg =>
        if isOverloadMsg msg && decide (rc < maxRetries - 1) then
          ((callApiGo backend budget (rc + 1)).1,
            retryDelay * retryMultiplier ^ rc :: (callApiGo backend budget (rc + 1)).2)
        else (none, []) := rfl

/-- A retry step: a transient error below the retry bound recurses and
records the wait. -/
theorem callApi_step (backend : Backend) (msg : List Char) (budget rc : Nat)
    (hb : backend rc = .error msg) (hm : isOverloadMsg msg = true)
    (hrc : rc < maxRetries - 1) :
    callApiGo backend (budget + 1) rc =
      ((callApiGo backend budget (rc + 1)).1,
        retryDelay * retryMultiplier ^ rc :: (callApiGo backend budget (rc + 1)).2) := by
  rw [callApiGo_succ, hb]
  simp [hm, hrc]

/-- A stopping step: a non-transient error, or a transient one at the retry
bound, returns `None` at once. -/
theorem callApi_stop (backend : Backend) (msg : List Char) (budget rc : Nat)
    (hb : backend rc = .error msg)
    (hstop : (isOverloadMsg msg && decide (rc < maxRetries - 1)) = false) :
    callApiGo backend (budget + 1) rc = (none, []) := by
  rw [callApiGo_succ, hb]
  simp [hstop]

/-- Claim C6.  Retry policy of `_call_claude_api`: a backend that reports a
transient overload on every attempt is consulted 5 times in all, with sleeps
of 15, 30, 60 and 120 between successive attempts (15 times 2 to the retry
count), after which `None` is returned; a backend whose first attempt fails
with a non-transient message gets no retry and `None` is returned at once.
In both cases the call returns instead of propagating the error. -/
theorem c6_retry_policy :
    (∀ (backend : Backend) (msg : List Char), (∀ k, backend k = .error msg) →
        isOverloadMsg msg = true → callClaudeApi backend 0 = (none, [15, 30, 60, 120]))
    ∧ (∀ (backend : Backend) (msg : List Char), backend 0 = .error msg →
        isOverloadMsg msg = false → callClaudeApi backend 0 = (none, [])) := by
  constructor
  · intro backend msg hb hm
    have s4 : callApiGo backend 1 4 = (none, []) :=
      callApi_stop backend msg 0 4 (hb 4) (by rw [hm]; rfl)
    have s3 : callApiGo backend 2 3 = (none, [120]) := by
      have h := callApi_step backend msg 1 3 (hb 3) hm (by decide)
      norm_num at h
      rw [s4] at h
      simpa using h
    have s2 : callApiGo backend 3 2 = (none, [60, 120]) := by
      have h := callApi_step backend msg 2 2 (hb 2) hm (by decide)
      norm_num at h
      rw [s3] at h
      simpa using h
    have s1 : callApiGo backend 4 1 = (none, [30, 60, 120]) := by
      have h := callApi_step backend msg 3 1 (hb 1) hm (by decide)
      norm_num at h
      rw [s2] at h
      simpa using h
    have s0 : callApiGo backend 5 0 = (none, [15, 30, 60, 120]) := by
      have h := callApi_step backend msg 4 0 (hb 0) hm (by decide)
      norm_num at h
      rw [s1] at h
      simpa using h
    exact s0
  · intro backend msg hb hm
    exact callApi_stop backend msg 4 0 hb (by rw [hm]; rfl)

/-- Claim C6, witness: the constant-overload backend really sleeps
15, 30, 60, 120 and gives up with `None` on the fifth attempt. -/
theorem c6_witness :
    callClaudeApi (fun _ => Except.error ("overloaded_error".toList)) 0
      = (none, [15, 30, 60, 120]) :=
  c6_retry_policy.1 _ _ (fun _ => rfl) (by decide)

/-- Claim C7.  When the backend interaction yields nothing (`None`: retries
exhausted or a permanent error for class and method elements, any exception
for field elements), `generate_comment` synthesizes the fallback placeholder
naming the element — a `클래스` block for class-like elements, a `메소드`
block for methods, a `// ... 필드` line for fields — and never the empty
string for any of these recognized element types. -/
theorem c7_fallback_comments (e : JavaElement) :
    ((e.type = "class".toList ∨ e.type = "interface".toList ∨ e.type = "enum".toList) →
      generateComment e none = "/**\n * ".toList ++ e.name ++ " 클래스\n */".toList)
    ∧ (e.type = "method".toList →
      generateComment e none = "/**\n * ".toList ++ e.name ++ " 메소드\n */".toList)
    ∧ (e.type = "field".toList →
      generateComment e none = "// ".toList ++ e.name ++ " 필드".toList)
    ∧ ((e.type = "class".toList ∨ e.type = "interface".toList ∨ e.type = "enum".toList
          ∨ e.type = "method".toList ∨ e.type = "field".toList) →
      generateComment e none ≠ []) := by
  have hclass : ∀ h : e.type = "class".toList ∨ e.type = "interface".toList
      ∨ e.type = "enum".toList,
      generateComment e none = "/**\n * ".toList ++ e.name ++ " 클래스\n */".toList := by
    intro h
    rw [generateComment, if_pos h]
    rfl
  have hmethod : ∀ h : e.type = "method".toList,
      generateComment e none = "/**\n * ".toList ++ e.name ++ " 메소드\n */".toList := by
    intro h
    rw [generateComment, if_neg (by rw [h]; decide), if_pos h]
    rfl
  have hfield : ∀ h : e.type = "field".toList,
      generateComment e none = "// ".toList ++ e.name ++ " 필드".toList := by
    intro h
    rw [generateComment, if_neg (by rw [h]; decide), if_neg (by rw [h]; decide), if_pos h]
    rfl
  refine ⟨hclass, hmethod, hfield, ?_⟩
  rintro (h | h | h | h | h)
  · rw [hclass (Or.inl h)]
    exact List.append_ne_nil_of_right_ne_nil _ (by decide)
  · rw [hclass (Or.inr (Or.inl h))]
    exact List.append_ne_nil_of_right_ne_nil _ (by decide)
  · rw [hclass (Or.inr (Or.inr h))]
    exact List.append_ne_nil_of_right_ne_nil _ (by decide)
  · rw [hmethod h]
    exact List.append_ne_nil_of_right_ne_nil _ (by decide)
  · rw [hfield h]
    exact List.append_ne_nil_of_right_ne_nil _ (by decide)

/-- Claim C7, witness: the fallback class comment for an element named
`Foo`. -/
theorem c7_witness :
    generateComment (⟨"class".toList, "Foo".toList, [], 1, none, none⟩ : JavaElement) none
      = "/**\n * Foo 클래스\n */".toList := by
  rw [(c7_fallback_comments ⟨"class".toList, "Foo".toList, [], 1, none, none⟩).1
    (Or.inl rfl)]
  rfl

/-- Claim C8.  The method result set of `parse` is empty for every source
text — `_extract_method_info` raises on its two-name `group` call for every
match, so the accessor filter is unreachable and the exclusion of
getter/setter/is methods holds only because no method is ever returned: a
source with both an accessor `getX` and a plain method `run` yields nothing
but its class element. -/
theorem c8_accessor_exclusion_vacuous :
    (∀ content : List Char, fileMethodEls content = [])
    ∧ parse ("class A \x7b\n    int getX() \x7b\n        return 1;\n    \x7d\n    void run() \x7b\n    \x7d\n\x7d\n".toList)
      = [⟨"class".toList, "A".toList, "class A \x7b".toList, 1, none, none⟩] := by
  exact ⟨fileMethodEls_eq_nil, rfl⟩

/-- Claim C9, counterexample.  Two class declarations on one physical line
give two elements with the same `startLine`: the start lines of the parse
result are not strictly increasing. -/
theorem c9_shared_start_line :
    (parse ("class A \x7b \x7d class B \x7b \x7d".toList)).map (fun e => e.line_number) = [1, 1]
    ∧ ¬ (parse ("class A \x7b \x7d class B \x7b \x7d".toList)).Pairwise
        (fun a b => a.line_number < b.line_number) := by
  exact ⟨rfl, by decide⟩

/-- Claim C9, amended.  The element list `parse` returns is sorted in
ascending (weak) `startLine` order; strictness fails, as two elements can
share a start line. -/
theorem c9_sorted_ascending (content : List Char) :
    (parse content).Pairwise (fun a b => a.line_number ≤ b.line_number) :=
  sortByLine_pairwise _

/-- Claim C10.  `process_java_file` always rewrites the file, even for an
element-free parse, with the `splitlines` result joined by a bare newline:
a trailing final newline is dropped and CRLF terminators become LF, so even
a fully documented file (zero recognized elements) is not left byte
identical. -/
theorem c10_rewrite_semantics :
    (∀ (gen : JavaElement → List Char) (content : List Char), parse content = [] →
        processJavaFileWith gen content
          = List.intercalate ("\n".toList) (splitlinesPy content))
    ∧ processJavaFileWith fallbackGen ("int x;\r\nint y;\r\n".toList)
        = "int x;\nint y;".toList
    ∧ processJavaFileWith fallbackGen ("/**\n * doc\n */\nclass A \x7b\n\x7d\n".toList)
        = "/**\n * doc\n */\nclass A \x7b\n\x7d".toList := by
  refine ⟨?_, rfl, rfl⟩
  intro gen content h
  simp [processJavaFileWith, h]

/-- Claim C10, witness: the blanket join-of-splitlines shape at a concrete
element-free file. -/
theorem c10_witness :
    processJavaFileWith fallbackGen ("int z;".toList)
      = List.intercalate ("\n".toList) (splitlinesPy ("int z;".toList)) :=
  c10_rewrite_semantics.1 fallbackGen ("int z;".toList) (by rfl)
